import Mathlib

/-!
Verification development for `batch_job/job_settings.py` of the minimal-batch-job
repository: a shallow embedding of the settings resolver, capability resolver,
identity deriver, record factory and settings registry, together with theorems
about the claims of the specification.

Conventions of the embedding:
* Python values appearing in raw configuration mappings are modelled by `RawValue`
  (None, bool, int, str); Python exceptions by `PyErr`; fallible Python code by
  `Except PyErr _`.
* Python's module system (`sys.modules` / `importlib.import_module`) is modelled
  by an explicit environment `PyState`; a module is a named table of symbols with
  a flag recording whether it is still mid-initialization (no `__spec__`, or
  `__spec__._initializing` true).
* Python floats are modelled exactly by `Rat`; no float arithmetic occurs in the
  source, floats are only stored and coerced.
* `datetime` values are modelled by `DateTime` (a plain record of calendar/time
  fields); the wall clock is an explicit argument `clock : Nat → DateTime`, each
  `datetime.now(timezone.utc)` call in the source consuming the next reading.
* `pickle.dumps` is modelled as the injective wrapper `Pickled`; deserialization
  is its projection `Pickled.data`.
-/

/-- A raw Python value as it may appear in a configuration mapping. -/
inductive RawValue where
  | none
  | bool (b : Bool)
  | int (i : Int)
  | str (s : String)
deriving DecidableEq, Repr

/-- The Python exceptions the embedded code can raise.
`importResolution` is the `ImportError("... doesn't look like a module path")`
raised by `import_string` when the dotted path has no separator (the spec's
ResolutionError); `importModuleNotFound` is `ModuleNotFoundError` from
`import_module`, and `importSymbolNotFound` is the
`ImportError('Module ... does not define ...')` raised when the loaded module
lacks the attribute (together the spec's NotFoundError). `attributeError`,
`typeError` and `valueError` are the builtin exceptions of those names. -/
inductive PyErr where
  | importResolution
  | importModuleNotFound
  | importSymbolNotFound
  | attributeError
  | typeError
  | valueError
deriving DecidableEq, Repr

/-- An opaque Python symbol (a class or other module attribute), identified by name. -/
inductive PySymbol where
  | mk (name : String)
deriving DecidableEq, Repr

/-- A Python module: its attribute table, and whether it is still mid-initialization
(the source treats a module without a fully initialized `__spec__` as not usable
from the cache). -/
structure PyModule where
  initializing : Bool
  symbols : List (String × PySymbol)
deriving DecidableEq, Repr

/-- The module system: `sys_modules` is the already-loaded cache (`sys.modules`),
`importable` the modules `importlib.import_module` can load. -/
structure PyState where
  sys_modules : List (String × PyModule)
  importable : List (String × PyModule)
deriving DecidableEq, Repr

/-- Embeds `importlib.import_module`: load a module by path, `ModuleNotFoundError`
when it does not exist. -/
def import_module (st : PyState) (module_path : String) : Except PyErr PyModule :=
  match st.importable.lookup module_path with
  | some m => Except.ok m
  | Option.none => Except.error PyErr.importModuleNotFound

/-- The module-obtaining step of `cached_import` (job_settings.py lines 15-20):
use the `sys.modules` entry when it is present and fully initialized, otherwise
(re)import it. -/
def moduleOf (st : PyState) (module_path : String) : Except PyErr PyModule :=
  match st.sys_modules.lookup module_path with
  | some m => if m.initializing then import_module st module_path else Except.ok m
  | Option.none => import_module st module_path

/-- Embeds `cached_import` (job_settings.py lines 13-21): obtain the module as in
`moduleOf`, then `getattr`, which raises `AttributeError` when the symbol is
absent. -/
def cached_import (st : PyState) (module_path class_name : String) : Except PyErr PySymbol := do
  let module ← moduleOf st module_path
  match module.symbols.lookup class_name with
  | some sym => Except.ok sym
  | Option.none => Except.error PyErr.attributeError

/-- Split a character list at its LAST `'.'`, returning the parts before and after
it; `Option.none` when no `'.'` occurs. This is `str.rsplit('.', 1)` restricted to
the successful two-part unpacking of the source. -/
def rsplitDotAux : List Char → Option (List Char × List Char)
  | [] => Option.none
  | c :: rest =>
    match rsplitDotAux rest with
    | some (m, n) => some (c :: m, n)
    | Option.none => if c = '.' then some ([], rest) else Option.none

/-- Embeds `dotted_path.rsplit('.', 1)` unpacked into `(module_path, class_name)`;
`Option.none` models the `ValueError` of unpacking a separator-free string. -/
def rsplitDot (s : String) : Option (String × String) :=
  match rsplitDotAux s.data with
  | some (m, n) => some (String.mk m, String.mk n)
  | Option.none => Option.none

/-- Embeds `import_string` (job_settings.py lines 24-37). A non-string argument
(in particular `None`, from a missing `job_class` key) has no `rsplit` attribute,
so the call raises an uncaught `AttributeError`. A string without `'.'` raises
the "doesn't look like a module path" `ImportError`. An `AttributeError` escaping
`cached_import` is re-raised as the "does not define" `ImportError`. -/
def import_string (st : PyState) (dotted_path : RawValue) : Except PyErr PySymbol :=
  match dotted_path with
  | RawValue.str s =>
    match rsplitDot s with
    | Option.none => Except.error PyErr.importResolution
    | some (module_path, class_name) =>
      match cached_import st module_path class_name with
      | Except.error PyErr.attributeError => Except.error PyErr.importSymbolNotFound
      | r => r
  | _ => Except.error PyErr.attributeError

/-- Digits of a decimal numeral to a natural number; `Option.none` unless the list
is non-empty and all decimal digits. -/
def digitsToNat (cs : List Char) : Option Nat :=
  if cs = [] then Option.none
  else if cs.all Char.isDigit then some (cs.foldl (fun a c => a * 10 + (c.toNat - 48)) 0)
  else Option.none

/-- Strip leading and trailing whitespace, as Python's numeric constructors do. -/
def pyStrip (cs : List Char) : List Char :=
  ((cs.dropWhile Char.isWhitespace).reverse.dropWhile Char.isWhitespace).reverse

/-- Python `int(s)` on a string: optional sign and decimal digits
(underscores and non-ASCII digits are not modelled). -/
def pyStrToInt (s : String) : Option Int :=
  match pyStrip s.data with
  | '-' :: cs => (digitsToNat cs).map (fun n => -(n : Int))
  | '+' :: cs => (digitsToNat cs).map (fun n => (n : Int))
  | cs => (digitsToNat cs).map (fun n => (n : Int))

/-- Python `float(s)` on a string: optional sign, decimal digits, optional point
and fraction digits (exponents and the inf/nan spellings are not modelled). -/
def pyStrToRat (s : String) : Option Rat :=
  let body : List Char → Option Rat := fun cs =>
    let ip := cs.takeWhile Char.isDigit
    let rest := cs.drop ip.length
    match rest with
    | [] => if ip = [] then Option.none else some ((ip.foldl (fun a c => a * 10 + (c.toNat - 48)) 0 : Nat) : Rat)
    | '.' :: fp =>
      if fp.all Char.isDigit then
        if ip = [] ∧ fp = [] then Option.none
        else some ((ip.foldl (fun a c => a * 10 + (c.toNat - 48)) 0 : Nat) +
                   ((fp.foldl (fun a c => a * 10 + (c.toNat - 48)) 0 : Nat) : Rat) / ((10 : Rat) ^ fp.length))
      else Option.none
    | _ => Option.none
  match pyStrip s.data with
  | '-' :: cs => (body cs).map (fun q => -q)
  | '+' :: cs => body cs
  | cs => body cs

/-- Python `int(x)`: `TypeError` on `None`, bools are 0/1, strings are parsed,
parse failure is `ValueError`. -/
def pyInt : RawValue → Except PyErr Int
  | RawValue.none => Except.error PyErr.typeError
  | RawValue.bool b => Except.ok (if b then 1 else 0)
  | RawValue.int i => Except.ok i
  | RawValue.str s =>
    match pyStrToInt s with
    | some i => Except.ok i
    | Option.none => Except.error PyErr.valueError

/-- Python `float(x)`. -/
def pyFloat : RawValue → Except PyErr Rat
  | RawValue.none => Except.error PyErr.typeError
  | RawValue.bool b => Except.ok (if b then 1 else 0)
  | RawValue.int i => Except.ok (i : Rat)
  | RawValue.str s =>
    match pyStrToRat s with
    | some q => Except.ok q
    | Option.none => Except.error PyErr.valueError

/-- Python `str(x)`; total, never raises: `str(None) = "None"`. -/
def pyStr : RawValue → String
  | RawValue.none => "None"
  | RawValue.bool b => if b then "True" else "False"
  | RawValue.int i => toString i
  | RawValue.str s => s

/-- Python `bool(x)`: truthiness, total, never raises. -/
def pyBool : RawValue → Bool
  | RawValue.none => false
  | RawValue.bool b => b
  | RawValue.int i => decide (i ≠ 0)
  | RawValue.str s => decide (s ≠ "")

/-- Embeds `dict.get(k, default)` on a raw configuration mapping (first binding wins,
as in a Python dict with distinct keys). -/
def dictGet (raw : List (String × RawValue)) (k : String) (dflt : RawValue) : RawValue :=
  match raw.lookup k with
  | some v => v
  | Option.none => dflt

/-- Modelled from the spec: a schedule value; `batch_job/job_schedule.py` is not
among the provided sources. The spec treats a schedule as an opaque recurrence
rule consumed only by the external scheduler, so it is kept abstract as its
crontab text. -/
structure JobSchedule where
  crontab : String
deriving DecidableEq, Repr

/-- Modelled from the spec: `schedule_from_crontab` (in `batch_job/job_schedule.py`,
not among the provided sources) maps the absent/None setting to "no constraint"
(`Option.none`, the spec's default) and a crontab string to the schedule it
describes. -/
def schedule_from_crontab : RawValue → Except PyErr (Option JobSchedule)
  | RawValue.none => Except.ok Option.none
  | RawValue.str s => Except.ok (some { crontab := s })
  | _ => Except.error PyErr.valueError

/-- Modelled from the spec: `VERSION_OFFSET` is defined in `batch_job/__init__.py`,
which is not among the provided sources; the spec's worked example fixes it to 100. -/
def VERSION_OFFSET : Int := 100

/-- Modelled from the spec: `REVISION_OFFSET` is defined in `batch_job/__init__.py`,
which is not among the provided sources; the spec's worked example fixes it to 1. -/
def REVISION_OFFSET : Int := 1

/-- A calendar date-time (the source's timezone-aware `datetime`; all values are UTC). -/
structure DateTime where
  year : Nat
  month : Nat
  day : Nat
  hour : Nat
  minute : Nat
  second : Nat
deriving DecidableEq, Repr

/-- Zero-pad to two digits. -/
def pad2 (n : Nat) : String := if n < 10 then "0" ++ toString n else toString n

/-- Zero-pad to four digits. -/
def pad4 (n : Nat) : String :=
  if n < 10 then "000" ++ toString n
  else if n < 100 then "00" ++ toString n
  else if n < 1000 then "0" ++ toString n
  else toString n

/-- One `%`-directive of `strftime` (the directives the source's formats can use;
an unrecognized directive is passed through literally). -/
def strftimeChar (d : DateTime) (c : Char) : String :=
  if c = 'Y' then pad4 d.year
  else if c = 'm' then pad2 d.month
  else if c = 'd' then pad2 d.day
  else if c = 'H' then pad2 d.hour
  else if c = 'M' then pad2 d.minute
  else if c = 'S' then pad2 d.second
  else if c = '%' then "%"
  else String.mk ['%', c]

/-- Rendering of `strftime` over the format string's characters. -/
def strftimeAux (d : DateTime) : List Char → String
  | [] => ""
  | '%' :: c :: rest => strftimeChar d c ++ strftimeAux d rest
  | c :: rest => String.mk [c] ++ strftimeAux d rest

/-- Embeds `d.strftime(fmt)`. -/
def DateTime.strftime (d : DateTime) (fmt : String) : String := strftimeAux d fmt.data

/-- Embeds the `JobSettings` class (job_settings.py lines 40-62): the typed,
immutable settings value, fields exactly as assigned in `__init__`. -/
structure JobSettings where
  job_schedule : Option JobSchedule
  date_format : String
  max_failures : Int
  max_consecutive_failures : Int
  expire_hours : Int
  batch_size : Int
  process_interval_in_seconds : Rat
  job_class : PySymbol
  job_type : String
  job_version : Int
  require_lock : Bool
deriving DecidableEq, Repr

/-- Embeds `JobSettings.get_job_partition` (lines 80-81):
`'{0}_{1}'.format(self.job_type, self.job_version + VERSION_OFFSET)`. -/
def JobSettings.get_job_partition (s : JobSettings) : String :=
  s.job_type ++ "_" ++ toString (s.job_version + VERSION_OFFSET)

/-- Embeds `JobSettings.get_job_id` (lines 83-84):
`'{0}_{1}_{2}'.format(run_date.strftime(self.date_format), revision + REVISION_OFFSET, self.get_job_partition())`. -/
def JobSettings.get_job_id (s : JobSettings) (run_date : DateTime) (revision : Int) : String :=
  run_date.strftime s.date_format ++ "_" ++ toString (revision + REVISION_OFFSET) ++ "_" ++ s.get_job_partition

/-- An opaque serialized blob (`pickle.dumps`), modelled as an injective wrapper;
`data` is what unpickling recovers. -/
structure Pickled (α : Type) where
  data : α
deriving DecidableEq, Repr

/-- Embeds `pickle.dumps`. -/
def pickle_dumps {α : Type} (a : α) : Pickled α := { data := a }

/-- Modelled from the spec: `BaseJobInputs` (in `batch_job/base_job.py`, not among
the provided sources) carries the serialized inputs snapshot
`{run_date, batch_size, process_interval}` named in §3 and in the `create_info`
call site. -/
structure BaseJobInputs where
  run_date : DateTime
  batch_size : Int
  process_interval : Rat
deriving DecidableEq, Repr

/-- Modelled from the spec: `BaseJobStates` (in `batch_job/base_job.py`, not among
the provided sources) carries the states snapshot
`{last_processed, processed, skipped}` named in §3 and in the `create_info` call site. -/
structure BaseJobStates where
  last_processed : String
  processed : Int
  skipped : Int
deriving DecidableEq, Repr

/-- Modelled from the spec: `JobStatus` (in `batch_job/job_data.py`, not among the
provided sources) is an enum whose initial value is `Pending`; the spec does not
name its other members, which are represented abstractly by `Other`. -/
inductive JobStatus where
  | Pending
  | Other (tag : Nat)
deriving DecidableEq, Repr

/-- Modelled from the spec: `JobInfo` (in `batch_job/job_data.py`, not among the
provided sources), the persisted run record, with exactly the fields the spec's §3
lists and `create_info` populates. -/
structure JobInfo where
  PartitionKey : String
  RowKey : String
  revision : Int
  inputs : Pickled BaseJobInputs
  states : Pickled BaseJobStates
  status : JobStatus
  create_time : DateTime
  update_time : DateTime
deriving DecidableEq, Repr

/-- Embeds `JobSettings.create_info` (lines 65-78). `run_date` is `Option DateTime`
because only `None` is falsy for `if not run_date:` (a `datetime` is always truthy).
`clock` is the wall clock; successive `datetime.now(timezone.utc)` calls consume
successive readings in source order: the `run_date` substitution first when it
happens, then `create_time`, then `update_time`. -/
def JobSettings.create_info (s : JobSettings) (revision : Int) (run_date : Option DateTime)
    (clock : Nat → DateTime) : JobInfo :=
  let rd : DateTime :=
    match run_date with
    | Option.none => clock 0
    | some d => d
  let base : Nat :=
    match run_date with
    | Option.none => 1
    | some _ => 0
  { PartitionKey := s.get_job_partition
    RowKey := s.get_job_id rd revision
    revision := revision
    inputs := pickle_dumps { run_date := rd, batch_size := s.batch_size,
                             process_interval := s.process_interval_in_seconds }
    states := pickle_dumps { last_processed := "", processed := 0, skipped := 0 }
    status := JobStatus.Pending
    create_time := clock base
    update_time := clock (base + 1) }

/-- Embeds `convert_settings` (lines 88-106), each field read, defaulted and
coerced exactly as in the source, in source order; any raised exception aborts
with no `JobSettings` produced. -/
def convert_settings (st : PyState) (raw : List (String × RawValue)) : Except PyErr JobSettings := do
  let job_schedule ← schedule_from_crontab (dictGet raw "job_schedule" RawValue.none)
  let date_format := pyStr (dictGet raw "date_format" (RawValue.str "%Y%m%d"))
  let max_failures ← pyInt (dictGet raw "max_failures" (RawValue.int 20))
  let max_consecutive_failures ← pyInt (dictGet raw "max_consecutive_failures" (RawValue.int 5))
  let expire_hours ← pyInt (dictGet raw "expire_hours" (RawValue.int 24))
  let batch_size ← pyInt (dictGet raw "batch_size" (RawValue.int 1000))
  let process_interval_in_seconds ← pyFloat (dictGet raw "process_interval_in_seconds" (RawValue.int 0))
  let job_class ← import_string st (dictGet raw "job_class" RawValue.none)
  let job_type := pyStr (dictGet raw "job_type" RawValue.none)
  let job_version ← pyInt (dictGet raw "job_version" (RawValue.int 1))
  let require_lock := pyBool (dictGet raw "require_lock" (RawValue.bool false))
  Except.ok { job_schedule := job_schedule, date_format := date_format,
              max_failures := max_failures,
              max_consecutive_failures := max_consecutive_failures,
              expire_hours := expire_hours, batch_size := batch_size,
              process_interval_in_seconds := process_interval_in_seconds,
              job_class := job_class, job_type := job_type,
              job_version := job_version, require_lock := require_lock }

/-- Embeds the `JobSettingsFactory` class (lines 109-116): the raw, un-resolved
configuration table keyed by friendly job name. -/
structure JobSettingsFactory where
  all_settings : List (String × List (String × RawValue))

/-- Embeds `JobSettingsFactory.create`: a known name resolves its raw settings
(afresh on every call); an unknown one synthesizes the built-in no-op settings
`{'job_class': 'batch_job.base_job.BaseJob', 'job_type': friendly_job_name}`. -/
def JobSettingsFactory.create (f : JobSettingsFactory) (st : PyState)
    (friendly_job_name : String) : Except PyErr JobSettings :=
  match f.all_settings.lookup friendly_job_name with
  | some raw => convert_settings st raw
  | Option.none =>
    convert_settings st
      [("job_class", RawValue.str "batch_job.base_job.BaseJob"),
       ("job_type", RawValue.str friendly_job_name)]

/-- Modelled from the spec: the class `BaseJob` (in `batch_job/base_job.py`, not
among the provided sources) is the built-in no-op job capability, here as the
opaque symbol that resolving `"batch_job.base_job.BaseJob"` yields. -/
def BaseJob : PySymbol := PySymbol.mk "BaseJob"

/-- Modelled from the spec: a module environment in which the repository's own
module `batch_job.base_job` is importable and defines `BaseJob` — the situation
the running program is always in, since `job_settings.py` itself imports that
module at load time. -/
def stdState : PyState :=
  { sys_modules := []
    importable := [("batch_job.base_job", { initializing := false, symbols := [("BaseJob", BaseJob)] })] }

/-- The spec's worked-example settings: job_type "ingest", job_version 2, every
other field at its default. -/
def ingestSample : JobSettings :=
  { job_schedule := Option.none, date_format := "%Y%m%d",
    max_failures := 20, max_consecutive_failures := 5, expire_hours := 24,
    batch_size := 1000, process_interval_in_seconds := 0, job_class := BaseJob,
    job_type := "ingest", job_version := 2, require_lock := false }

/-- The spec's worked-example run date, 2024-03-05 (midnight UTC). -/
def sampleDate : DateTime :=
  { year := 2024, month := 3, day := 5, hour := 0, minute := 0, second := 0 }

/-- C1: identity derivation is deterministic — any two settings values agreeing on
`(job_type, job_version, date_format)`, evaluated at equal run dates and equal
revisions, yield the identical partition key and the identical row key. -/
theorem identity_derivation_deterministic
    (s1 s2 : JobSettings) (d1 d2 : DateTime) (r1 r2 : Int)
    (hty : s1.job_type = s2.job_type) (hver : s1.job_version = s2.job_version)
    (hfmt : s1.date_format = s2.date_format) (hd : d1 = d2) (hr : r1 = r2) :
    s1.get_job_partition = s2.get_job_partition ∧ s1.get_job_id d1 r1 = s2.get_job_id d2 r2 := by
  subst hd hr
  have hpart : s1.get_job_partition = s2.get_job_partition := by
    simp [JobSettings.get_job_partition, hty, hver]
  exact ⟨hpart, by simp [JobSettings.get_job_id, hfmt, hpart]⟩

/-- Witness for C1 at concrete inputs: two distinct settings values agreeing on the
identity-relevant fields give identical identifiers. -/
theorem identity_derivation_deterministic_witness :
    ingestSample.get_job_partition =
      (JobSettings.get_job_partition
        { ingestSample with max_failures := 7, require_lock := true }) ∧
    ingestSample.get_job_id sampleDate 0 =
      (JobSettings.get_job_id
        { ingestSample with max_failures := 7, require_lock := true } sampleDate 0) :=
  identity_derivation_deterministic ingestSample
    { ingestSample with max_failures := 7, require_lock := true }
    sampleDate sampleDate 0 0 rfl rfl rfl rfl rfl

/-- C2: the identifier formulas — the partition key is
`job_type ++ "_" ++ (job_version + VERSION_OFFSET)` and the row key is
`strftime(run_date, date_format) ++ "_" ++ (revision + REVISION_OFFSET) ++ "_" ++ partition_key`;
at the spec's example inputs these give "ingest_102" and "20240305_1_ingest_102". -/
theorem identifier_formulas :
    (∀ s : JobSettings,
      s.get_job_partition = s.job_type ++ "_" ++ toString (s.job_version + VERSION_OFFSET)) ∧
    (∀ (s : JobSettings) (d : DateTime) (r : Int),
      s.get_job_id d r =
        d.strftime s.date_format ++ "_" ++ toString (r + REVISION_OFFSET) ++ "_" ++ s.get_job_partition) ∧
    ingestSample.get_job_partition = "ingest_102" ∧
    ingestSample.get_job_id sampleDate 0 = "20240305_1_ingest_102" :=
  ⟨fun _ => rfl, fun _ _ _ => rfl, by decide, by decide⟩

/-- C3 (failing-input evaluation): a raw mapping missing the required key
`job_type` does NOT make `convert_settings` fail — the code coerces the missing
value with `str(None)` and returns a settings value whose `job_type` is the
string "None", contradicting the function's own docstring, which lists
`job_type` as required. -/
theorem missing_job_type_no_error :
    ∃ js : JobSettings,
      convert_settings stdState [("job_class", RawValue.str "batch_job.base_job.BaseJob")] =
        Except.ok js ∧
      js.job_type = "None" := by
  refine ⟨_, rfl, rfl⟩

/-- Helper: `convert_settings` on a mapping holding exactly a resolvable
`job_class` and a `job_type` yields the all-defaults settings value. -/
theorem convert_settings_two_keys (st : PyState) (cls : String) (sym : PySymbol) (tyv : RawValue)
    (hres : import_string st (RawValue.str cls) = Except.ok sym) :
    convert_settings st [("job_class", RawValue.str cls), ("job_type", tyv)] =
      Except.ok { job_schedule := Option.none, date_format := "%Y%m%d",
                  max_failures := 20, max_consecutive_failures := 5, expire_hours := 24,
                  batch_size := 1000, process_interval_in_seconds := 0, job_class := sym,
                  job_type := pyStr tyv, job_version := 1, require_lock := false } := by
  simp [convert_settings, dictGet, List.lookup, schedule_from_crontab, pyInt, pyFloat, pyBool,
        pyStr, hres, bind, Except.bind]

/-- C4: on a raw mapping containing only a resolvable `job_class` and a
`job_type`, `convert_settings` returns a settings value whose every other field
equals the defaults table: no schedule, date_format "%Y%m%d", max_failures 20,
max_consecutive_failures 5, expire_hours 24, batch_size 1000,
process_interval_in_seconds 0, require_lock false, job_version 1. -/
theorem convert_settings_defaults (st : PyState) (cls : String) (sym : PySymbol) (tyv : RawValue)
    (hres : import_string st (RawValue.str cls) = Except.ok sym) :
    convert_settings st [("job_class", RawValue.str cls), ("job_type", tyv)] =
      Except.ok { job_schedule := Option.none, date_format := "%Y%m%d",
                  max_failures := 20, max_consecutive_failures := 5, expire_hours := 24,
                  batch_size := 1000, process_interval_in_seconds := 0, job_class := sym,
                  job_type := pyStr tyv, job_version := 1, require_lock := false } :=
  convert_settings_two_keys st cls sym tyv hres

/-- Witness for C4 at the concrete mapping
`{'job_class': 'batch_job.base_job.BaseJob', 'job_type': "ingest"}`. -/
theorem convert_settings_defaults_witness :
    convert_settings stdState
        [("job_class", RawValue.str "batch_job.base_job.BaseJob"),
         ("job_type", RawValue.str "ingest")] =
      Except.ok { job_schedule := Option.none, date_format := "%Y%m%d",
                  max_failures := 20, max_consecutive_failures := 5, expire_hours := 24,
                  batch_size := 1000, process_interval_in_seconds := 0, job_class := BaseJob,
                  job_type := pyStr (RawValue.str "ingest"), job_version := 1,
                  require_lock := false } :=
  convert_settings_defaults stdState "batch_job.base_job.BaseJob" BaseJob
    (RawValue.str "ingest") rfl

/-- C8: for a friendly name absent from the registry's table, and with the
repository's own `batch_job.base_job` module importable (as it always is when
`job_settings.py` has loaded), `create` does not raise: it returns the
all-defaults settings value with `job_type` equal to that name and `job_class`
the built-in no-op capability `BaseJob`. -/
theorem unknown_name_noop_settings (f : JobSettingsFactory) (name : String)
    (hunk : f.all_settings.lookup name = Option.none) :
    f.create stdState name =
      Except.ok { job_schedule := Option.none, date_format := "%Y%m%d",
                  max_failures := 20, max_consecutive_failures := 5, expire_hours := 24,
                  batch_size := 1000, process_interval_in_seconds := 0, job_class := BaseJob,
                  job_type := name, job_version := 1, require_lock := false } := by
  unfold JobSettingsFactory.create
  rw [hunk]
  exact convert_settings_two_keys stdState "batch_job.base_job.BaseJob" BaseJob
    (RawValue.str name) rfl

/-- Witness for C8: an empty registry, looked up at the name "unknown-name". -/
theorem unknown_name_noop_settings_witness :
    JobSettingsFactory.create { all_settings := [] } stdState "unknown-name" =
      Except.ok { job_schedule := Option.none, date_format := "%Y%m%d",
                  max_failures := 20, max_consecutive_failures := 5, expire_hours := 24,
                  batch_size := 1000, process_interval_in_seconds := 0, job_class := BaseJob,
                  job_type := "unknown-name", job_version := 1, require_lock := false } :=
  unknown_name_noop_settings { all_settings := [] } "unknown-name" rfl

/-- Helper: inversion of `Except` bind at a success. -/
theorem exceptBind_eq_ok {ε α β : Type} (x : Except ε α) (f : α → Except ε β) (b : β)
    (h : (x >>= f) = Except.ok b) : ∃ a, x = Except.ok a ∧ f a = Except.ok b := by
  cases x with
  | error e => simp [Bind.bind, Except.bind] at h
  | ok a => exact ⟨a, rfl, by simpa [Bind.bind, Except.bind] using h⟩

/-- Helper: when `convert_settings` succeeds, every field of the produced settings
value is exactly the defaulted, coerced reading of its key. -/
theorem convert_settings_ok_fields (st : PyState) (raw : List (String × RawValue)) (js : JobSettings)
    (h : convert_settings st raw = Except.ok js) :
    schedule_from_crontab (dictGet raw "job_schedule" RawValue.none) = Except.ok js.job_schedule ∧
    js.date_format = pyStr (dictGet raw "date_format" (RawValue.str "%Y%m%d")) ∧
    pyInt (dictGet raw "max_failures" (RawValue.int 20)) = Except.ok js.max_failures ∧
    pyInt (dictGet raw "max_consecutive_failures" (RawValue.int 5)) = Except.ok js.max_consecutive_failures ∧
    pyInt (dictGet raw "expire_hours" (RawValue.int 24)) = Except.ok js.expire_hours ∧
    pyInt (dictGet raw "batch_size" (RawValue.int 1000)) = Except.ok js.batch_size ∧
    pyFloat (dictGet raw "process_interval_in_seconds" (RawValue.int 0)) = Except.ok js.process_interval_in_seconds ∧
    import_string st (dictGet raw "job_class" RawValue.none) = Except.ok js.job_class ∧
    js.job_type = pyStr (dictGet raw "job_type" RawValue.none) ∧
    pyInt (dictGet raw "job_version" (RawValue.int 1)) = Except.ok js.job_version ∧
    js.require_lock = pyBool (dictGet raw "require_lock" (RawValue.bool false)) := by
  unfold convert_settings at h
  obtain ⟨v0, e0, h⟩ := exceptBind_eq_ok _ _ _ h
  obtain ⟨v1, e1, h⟩ := exceptBind_eq_ok _ _ _ h
  obtain ⟨v2, e2, h⟩ := exceptBind_eq_ok _ _ _ h
  obtain ⟨v3, e3, h⟩ := exceptBind_eq_ok _ _ _ h
  obtain ⟨v4, e4, h⟩ := exceptBind_eq_ok _ _ _ h
  obtain ⟨v5, e5, h⟩ := exceptBind_eq_ok _ _ _ h
  obtain ⟨v6, e6, h⟩ := exceptBind_eq_ok _ _ _ h
  obtain ⟨v7, e7, h⟩ := exceptBind_eq_ok _ _ _ h
  injection h with h
  subst h
  exact ⟨e0, rfl, e1, e2, e3, e4, e5, e6, rfl, e7, rfl⟩

/-- C5 (counterexample): a successfully converted settings value can carry a
negative numeric field — a raw `max_failures` of -5 passes coercion unclamped,
so the non-negativity invariant does not hold of every successful conversion. -/
theorem numeric_nonneg_counterexample :
    ∃ js : JobSettings,
      convert_settings stdState
        [("job_class", RawValue.str "batch_job.base_job.BaseJob"),
         ("job_type", RawValue.str "x"),
         ("max_failures", RawValue.int (-5))] = Except.ok js ∧
      js.max_failures < 0 := by
  refine ⟨_, rfl, by decide⟩

/-- C5 (amended): the numeric fields of a successfully converted settings value
are non-negative PROVIDED every value the raw mapping supplies for a numeric key
coerces to a non-negative number (in particular when those keys are absent, since
the defaults 20, 5, 24, 1000 and 0 are non-negative); the code itself never
clamps or checks sign. -/
theorem numeric_fields_nonneg (st : PyState) (raw : List (String × RawValue)) (js : JobSettings)
    (h : convert_settings st raw = Except.ok js)
    (h1 : ∀ n : Int, pyInt (dictGet raw "max_failures" (RawValue.int 20)) = Except.ok n → 0 ≤ n)
    (h2 : ∀ n : Int, pyInt (dictGet raw "max_consecutive_failures" (RawValue.int 5)) = Except.ok n → 0 ≤ n)
    (h3 : ∀ n : Int, pyInt (dictGet raw "expire_hours" (RawValue.int 24)) = Except.ok n → 0 ≤ n)
    (h4 : ∀ n : Int, pyInt (dictGet raw "batch_size" (RawValue.int 1000)) = Except.ok n → 0 ≤ n)
    (h5 : ∀ q : Rat, pyFloat (dictGet raw "process_interval_in_seconds" (RawValue.int 0)) = Except.ok q → 0 ≤ q) :
    0 ≤ js.max_failures ∧ 0 ≤ js.max_consecutive_failures ∧ 0 ≤ js.expire_hours ∧
    0 ≤ js.batch_size ∧ 0 ≤ js.process_interval_in_seconds := by
  obtain ⟨-, -, e1, e2, e3, e4, e5, -, -, -, -⟩ := convert_settings_ok_fields st raw js h
  exact ⟨h1 _ e1, h2 _ e2, h3 _ e3, h4 _ e4, h5 _ e5⟩

/-- Witness for C5 (amended) at the all-defaults mapping. -/
theorem numeric_fields_nonneg_witness :
    ∃ js : JobSettings,
      convert_settings stdState
        [("job_class", RawValue.str "batch_job.base_job.BaseJob"),
         ("job_type", RawValue.str "ingest")] = Except.ok js ∧
      0 ≤ js.max_failures ∧ 0 ≤ js.max_consecutive_failures ∧ 0 ≤ js.expire_hours ∧
      0 ≤ js.batch_size ∧ 0 ≤ js.process_interval_in_seconds := by
  have h : convert_settings stdState
      [("job_class", RawValue.str "batch_job.base_job.BaseJob"),
       ("job_type", RawValue.str "ingest")] =
      Except.ok { job_schedule := Option.none, date_format := "%Y%m%d", max_failures := 20,
                  max_consecutive_failures := 5, expire_hours := 24, batch_size := 1000,
                  process_interval_in_seconds := 0, job_class := BaseJob, job_type := "ingest",
                  job_version := 1, require_lock := false } := rfl
  refine ⟨_, h, numeric_fields_nonneg stdState _ _ h ?_ ?_ ?_ ?_ ?_⟩
  all_goals intro n hn
  all_goals simp only [dictGet, List.lookup, pyInt, pyFloat] at hn
  all_goals injection hn with hn
  all_goals subst hn
  all_goals norm_num

/-- C10: `require_lock` is coerced by truthiness (`bool(x)`), not by parsing —
whenever `convert_settings` succeeds, the resulting `require_lock` equals the
truthiness of the raw value (defaulting to False when absent), and truthiness
makes every non-empty string True (including "false", "no", "0"), while None,
False, the empty string and zero are False. -/
theorem require_lock_truthiness (st : PyState) (raw : List (String × RawValue)) (js : JobSettings)
    (h : convert_settings st raw = Except.ok js) :
    js.require_lock = pyBool (dictGet raw "require_lock" (RawValue.bool false)) ∧
    (∀ v : String, pyBool (RawValue.str v) = true ↔ v ≠ "") ∧
    pyBool RawValue.none = false ∧
    (∀ b : Bool, pyBool (RawValue.bool b) = b) ∧
    (∀ i : Int, pyBool (RawValue.int i) = true ↔ i ≠ 0) := by
  obtain ⟨-, -, -, -, -, -, -, -, -, -, hrl⟩ := convert_settings_ok_fields st raw js h
  exact ⟨hrl, fun v => by simp [pyBool], rfl, fun b => rfl, fun i => by simp [pyBool]⟩

/-- Witness for C10: supplying the string "false" for `require_lock` yields
`require_lock = true`. -/
theorem require_lock_truthiness_witness :
    ∃ js : JobSettings,
      convert_settings stdState
        [("job_class", RawValue.str "batch_job.base_job.BaseJob"),
         ("job_type", RawValue.str "x"),
         ("require_lock", RawValue.str "false")] = Except.ok js ∧
      js.require_lock = true := by
  have h : convert_settings stdState
      [("job_class", RawValue.str "batch_job.base_job.BaseJob"),
       ("job_type", RawValue.str "x"),
       ("require_lock", RawValue.str "false")] =
      Except.ok { job_schedule := Option.none, date_format := "%Y%m%d", max_failures := 20,
                  max_consecutive_failures := 5, expire_hours := 24, batch_size := 1000,
                  process_interval_in_seconds := 0, job_class := BaseJob, job_type := "x",
                  job_version := 1, require_lock := true } := rfl
  exact ⟨_, h, ((require_lock_truthiness stdState _ _ h).1).trans (by decide)⟩

/-- Helper: a dot-free character list has no last-dot split. -/
theorem rsplitDotAux_of_no_dot (l : List Char) (h : '.' ∉ l) : rsplitDotAux l = Option.none := by
  induction l with
  | nil => rfl
  | cons c rest ih =>
    have hc : c ≠ '.' := fun hc => h (hc ▸ List.mem_cons_self c rest)
    have hr : '.' ∉ rest := fun hr => h (List.mem_cons_of_mem c hr)
    simp [rsplitDotAux, ih hr, hc]

/-- Helper: splitting at the last dot of `m ++ '.' :: n` gives `(m, n)` when `n`
is dot-free. -/
theorem rsplitDotAux_append (m n : List Char) (h : '.' ∉ n) :
    rsplitDotAux (m ++ '.' :: n) = some (m, n) := by
  induction m with
  | nil => simp [rsplitDotAux, rsplitDotAux_of_no_dot n h]
  | cons c rest ih => simp [rsplitDotAux, ih]

/-- Helper: `rsplit` of `mp ++ "." ++ cn` recovers `(mp, cn)` when the symbol
name `cn` is dot-free. -/
theorem rsplitDot_append (mp cn : String) (h : '.' ∉ cn.data) :
    rsplitDot (mp ++ "." ++ cn) = some (mp, cn) := by
  unfold rsplitDot
  have hdata : (mp ++ "." ++ cn).data = mp.data ++ '.' :: cn.data := by
    simp [String.data_append]
  rw [hdata, rsplitDotAux_append _ _ h]

/-- C6: capability resolution classifies its failures — a dotted identifier
without a separator fails with the "doesn't look like a module path" error (the
spec's ResolutionError); a loadable container lacking the requested symbol fails
with the distinct "does not define" error (the spec's NotFoundError); and a
loadable container holding the symbol resolves to exactly that symbol. -/
theorem capability_resolution_classified (st : PyState) :
    (∀ s : String, '.' ∉ s.data →
      import_string st (RawValue.str s) = Except.error PyErr.importResolution) ∧
    (∀ (mp cn : String) (m : PyModule), '.' ∉ cn.data →
      moduleOf st mp = Except.ok m → m.symbols.lookup cn = Option.none →
      import_string st (RawValue.str (mp ++ "." ++ cn)) = Except.error PyErr.importSymbolNotFound) ∧
    (∀ (mp cn : String) (m : PyModule) (sym : PySymbol), '.' ∉ cn.data →
      moduleOf st mp = Except.ok m → m.symbols.lookup cn = some sym →
      import_string st (RawValue.str (mp ++ "." ++ cn)) = Except.ok sym) ∧
    PyErr.importSymbolNotFound ≠ PyErr.importResolution := by
  refine ⟨?_, ?_, ?_, by simp⟩
  · intro s hs
    have : rsplitDotAux s.data = Option.none := rsplitDotAux_of_no_dot s.data hs
    simp [import_string, rsplitDot, this]
  · intro mp cn m hcn hmod hsym
    have hd : rsplitDot (mp ++ "." ++ cn) = some (mp, cn) := rsplitDot_append mp cn hcn
    simp [import_string, hd, cached_import, hmod, hsym, bind, Except.bind]
  · intro mp cn m sym hcn hmod hsym
    have hd : rsplitDot (mp ++ "." ++ cn) = some (mp, cn) := rsplitDot_append mp cn hcn
    simp [import_string, hd, cached_import, hmod, hsym, bind, Except.bind]

/-- Witness for C6 in a concrete module environment: the separator-free path
"nodots", the missing symbol `Missing`, and the present symbol `BaseJob`. -/
theorem capability_resolution_classified_witness :
    import_string stdState (RawValue.str "nodots") = Except.error PyErr.importResolution ∧
    import_string stdState (RawValue.str "batch_job.base_job.Missing") =
      Except.error PyErr.importSymbolNotFound ∧
    import_string stdState (RawValue.str "batch_job.base_job.BaseJob") = Except.ok BaseJob := by
  obtain ⟨h1, h2, h3, -⟩ := capability_resolution_classified stdState
  refine ⟨h1 "nodots" (by decide), ?_, ?_⟩
  · exact h2 "batch_job.base_job" "Missing"
      { initializing := false, symbols := [("BaseJob", BaseJob)] } (by decide) rfl rfl
  · exact h3 "batch_job.base_job" "BaseJob"
      { initializing := false, symbols := [("BaseJob", BaseJob)] } BaseJob (by decide) rfl rfl

/-- C7 (counterexample): the source computes `create_time` and `update_time` by
two separate `datetime.now(timezone.utc)` calls; under a clock that advances by
one second between the two readings, the produced record has
`create_time ≠ update_time`, so the claimed equality does not hold of every
invocation. -/
theorem create_time_ne_update_time :
    (JobSettings.create_info ingestSample 0 (some sampleDate)
        (fun n => { year := 2024, month := 3, day := 5, hour := 0,
                    minute := 0, second := n })).create_time ≠
    (JobSettings.create_info ingestSample 0 (some sampleDate)
        (fun n => { year := 2024, month := 3, day := 5, hour := 0,
                    minute := 0, second := n })).update_time := by
  decide

/-- C7 (amended): for every settings value, revision and explicit run date,
`create_info` produces a record whose serialized inputs hold exactly that run
date (with the settings' batch size and process interval), whose serialized
states deserialize to `{last_processed = "", processed = 0, skipped = 0}`, whose
status is Pending, and whose `create_time` and `update_time` are the two
successive clock readings taken at creation — equal whenever the clock does not
advance between them. -/
theorem create_info_record_fields (s : JobSettings) (rev : Int) (d : DateTime)
    (clock : Nat → DateTime) (hclk : clock 0 = clock 1) :
    (s.create_info rev (some d) clock).inputs.data =
      { run_date := d, batch_size := s.batch_size,
        process_interval := s.process_interval_in_seconds } ∧
    (s.create_info rev (some d) clock).states.data =
      { last_processed := "", processed := 0, skipped := 0 } ∧
    (s.create_info rev (some d) clock).status = JobStatus.Pending ∧
    (s.create_info rev (some d) clock).create_time = clock 0 ∧
    (s.create_info rev (some d) clock).update_time = clock 1 ∧
    (s.create_info rev (some d) clock).create_time = (s.create_info rev (some d) clock).update_time :=
  ⟨rfl, rfl, rfl, rfl, rfl, hclk⟩

/-- Witness for C7 (amended) at concrete inputs with a non-advancing clock. -/
theorem create_info_record_fields_witness :
    (JobSettings.create_info ingestSample 3 (some sampleDate) (fun _ => sampleDate)).inputs.data =
      { run_date := sampleDate, batch_size := 1000, process_interval := 0 } ∧
    (JobSettings.create_info ingestSample 3 (some sampleDate) (fun _ => sampleDate)).states.data =
      { last_processed := "", processed := 0, skipped := 0 } ∧
    (JobSettings.create_info ingestSample 3 (some sampleDate) (fun _ => sampleDate)).status =
      JobStatus.Pending ∧
    (JobSettings.create_info ingestSample 3 (some sampleDate) (fun _ => sampleDate)).create_time =
      sampleDate ∧
    (JobSettings.create_info ingestSample 3 (some sampleDate) (fun _ => sampleDate)).update_time =
      sampleDate ∧
    (JobSettings.create_info ingestSample 3 (some sampleDate) (fun _ => sampleDate)).create_time =
      (JobSettings.create_info ingestSample 3 (some sampleDate) (fun _ => sampleDate)).update_time :=
  create_info_record_fields ingestSample 3 sampleDate (fun _ => sampleDate) rfl

/-- C9: the record and its row key never disagree about the run date — on both
the explicit-date path and the substituted-now path, the row key is derived (via
`get_job_id`) from exactly the run date value that is serialized into the
record's inputs. -/
theorem row_key_matches_serialized_run_date (s : JobSettings) (rev : Int)
    (rd : Option DateTime) (clock : Nat → DateTime) :
    (s.create_info rev rd clock).RowKey =
      s.get_job_id (s.create_info rev rd clock).inputs.data.run_date rev := by
  cases rd <;> rfl
